import Mathlib

/-!
# Verification of the Disease-Relater risk-scoring engine

Shallow embedding of `api/services/risk_calculator.py` (class `RiskCalculator`).

Modelling conventions:
* Python floats are modelled as exact rationals (`ℚ`); `round(x, 4)` is modelled
  as exact round-half-even at 4 decimal places (`round4`), and
  `round(math.sqrt(x), 4)` as the exact 4-decimal round-half-even of `√x`
  (`roundSqrt4`, computed with integer square roots).
* Python dicts (built in insertion order, unique keys) are modelled as
  association lists `List (String × ℚ)`; `d[k] *= v` multiplies the entry with
  key `k`, `k in d` is key membership.
* SQL `null` / absent optional fields are modelled as `Option`; Python
  truthiness tests on numbers (`if x:`) become `≠ 0` tests after unpacking.
* `list.sort(key=..., reverse=True)` is modelled with `List.insertionSort` on
  the same key; the order among entries with equal keys is not fixed by the
  claims under verification.
-/

namespace DiseaseRelater

/-- Round-half-even of a rational to an integer (Python `round(q)` semantics
on exact values). -/
def roundHalfEven (q : ℚ) : ℤ :=
  let f := ⌊q⌋
  if q - f < 1/2 then f
  else if q - f > 1/2 then f + 1
  else if f % 2 = 0 then f else f + 1

/-- Python `round(q, 4)`: round-half-even at 4 decimal places. -/
def round4 (q : ℚ) : ℚ := (roundHalfEven (q * 10000) : ℚ) / 10000

/-- Clamp `v` into `[lo, hi]`; Python `max(lo, min(hi, v))`. -/
def clamp (lo hi v : ℚ) : ℚ := max lo (min hi v)

/-- Floor of the square root of a nonnegative rational:
`⌊√(a/b)⌋ = ⌊√(a·b)⌋ / b` with integer division. -/
def ratFloorSqrt (q : ℚ) : ℕ := Nat.sqrt (q.num.toNat * q.den) / q.den

/-- Round-half-even of `√q` (for `q ≥ 0`) to an integer, computed without
real arithmetic: compare `√q` with `n + 1/2` by squaring. -/
def roundSqrtHalfEven (q : ℚ) : ℕ :=
  let n := ratFloorSqrt q
  if 4 * q < ((2 * n + 1 : ℕ) : ℚ) ^ 2 then n
  else if 4 * q > ((2 * n + 1 : ℕ) : ℚ) ^ 2 then n + 1
  else if n % 2 = 0 then n else n + 1

/-- Python `round(math.sqrt(sq), 4)` for `sq ≥ 0`:
round-half-even of `√sq · 10⁴`, divided by `10⁴`. -/
def roundSqrt4 (sq : ℚ) : ℚ := (roundSqrtHalfEven (sq * 10 ^ 8) : ℚ) / 10 ^ 4

/-- Enum `exercise_level` of `RiskCalculationRequest` (schemas/calculate.py). -/
inductive ExerciseLevel
  | sedentary
  | light
  | moderate
  | active
deriving DecidableEq, Repr

/-- Enum `gender` of `RiskCalculationRequest`. -/
inductive Gender
  | male
  | female
deriving DecidableEq, Repr

/-- `RiskCalculationRequest`: validated user profile reaching the engine. -/
structure Request where
  age : ℤ
  gender : Gender
  bmi : ℚ
  existing_conditions : List String
  exercise_level : ExerciseLevel
  smoking : Bool
deriving DecidableEq, Repr

/-- `RiskCalculator.DISEASE_CATEGORIES`: ICD-10 chapter letter → category. -/
def DISEASE_CATEGORIES (chapter : Char) : Option String :=
  if chapter = 'E' then some "metabolic"
  else if chapter = 'I' then some "cardiovascular"
  else if chapter = 'J' then some "respiratory"
  else none

/-- `RiskCalculator._get_disease_category`: first character of the ICD code,
uppercased, looked up with default `"other"`; empty code → `"other"`. -/
def get_disease_category (icd_code : String) : String :=
  match icd_code.toList with
  | [] => "other"
  | c :: _ => (DISEASE_CATEGORIES c.toUpper).getD "other"

/-- `RiskCalculator._get_age_group`: age band classification
(thresholds `AGE_ELDERLY = 65`, `AGE_MIDDLE = 45`, `AGE_YOUNG = 30`). -/
def get_age_group (age : ℤ) : String :=
  if age ≥ 65 then "elderly"
  else if age ≥ 45 then "middle"
  else if age ≥ 30 then "young_adult"
  else "young"

/-- `RiskCalculator.AGE_MULTIPLIERS["metabolic"]`. -/
def ageTableMetabolic (g : String) : Option ℚ :=
  if g = "elderly" then some 1.3
  else if g = "middle" then some 1.15
  else if g = "young_adult" then some 1.0
  else if g = "young" then some 0.8
  else none

/-- `RiskCalculator.AGE_MULTIPLIERS["cardiovascular"]`. -/
def ageTableCardiovascular (g : String) : Option ℚ :=
  if g = "elderly" then some 1.5
  else if g = "middle" then some 1.25
  else if g = "young_adult" then some 1.0
  else if g = "young" then some 0.7
  else none

/-- `RiskCalculator.AGE_MULTIPLIERS["respiratory"]`. -/
def ageTableRespiratory (g : String) : Option ℚ :=
  if g = "elderly" then some 1.2
  else if g = "middle" then some 1.1
  else if g = "young_adult" then some 1.0
  else if g = "young" then some 0.9
  else none

/-- `RiskCalculator.AGE_MULTIPLIERS["other"]`. -/
def ageTableOther (g : String) : Option ℚ :=
  if g = "elderly" then some 1.15
  else if g = "middle" then some 1.05
  else if g = "young_adult" then some 1.0
  else if g = "young" then some 0.95
  else none

/-- `RiskCalculator.AGE_MULTIPLIERS` as a two-level lookup. -/
def AGE_MULTIPLIERS (category : String) : Option (String → Option ℚ) :=
  if category = "metabolic" then some ageTableMetabolic
  else if category = "cardiovascular" then some ageTableCardiovascular
  else if category = "respiratory" then some ageTableRespiratory
  else if category = "other" then some ageTableOther
  else none

/-- `self.AGE_MULTIPLIERS.get(category, AGE_MULTIPLIERS["other"]).get(age_group, 1.0)`. -/
def ageMult (category age_group : String) : ℚ :=
  (((AGE_MULTIPLIERS category).getD ageTableOther) age_group).getD 1.0

/-- Multiplier accumulated by one iteration of
`RiskCalculator._apply_lifestyle_factors`: starts at `1.0`; BMI applies to
metabolic, smoking to cardiovascular/respiratory, exercise to cardiovascular,
and the category-specific age multiplier applies when it is not `1.0`. -/
def lifestyle_multiplier (req : Request) (disease_id : String) : ℚ :=
  let category := get_disease_category disease_id
  let age_group := get_age_group req.age
  let m1 : ℚ :=
    if category = "metabolic" then
      if req.bmi ≥ 30 then 1.0 * 1.5
      else if req.bmi ≥ 25 then 1.0 * 1.2
      else 1.0
    else 1.0
  let m2 : ℚ :=
    if req.smoking then
      if category = "cardiovascular" then m1 * 1.8
      else if category = "respiratory" then m1 * 1.6
      else m1
    else m1
  let m3 : ℚ :=
    if category = "cardiovascular" then
      if req.exercise_level = ExerciseLevel.sedentary ∨
          req.exercise_level = ExerciseLevel.light then m2 * 1.3
      else if req.exercise_level = ExerciseLevel.active then m2 * 0.7
      else m2
    else m2
  let age_mult := ageMult category age_group
  if age_mult ≠ 1.0 then m3 * age_mult else m3

/-- Factor strings accumulated by the same iteration, under exactly the same
branch conditions as `lifestyle_multiplier` (the loop appends the string in
the branch in which it multiplies); independent of the incoming risk. -/
def lifestyle_factors_one (req : Request) (disease_id : String) : List String :=
  let category := get_disease_category disease_id
  let age_group := get_age_group req.age
  let f1 : List String :=
    if category = "metabolic" then
      if req.bmi ≥ 30 then ["High BMI (obese) - metabolic impact"]
      else if req.bmi ≥ 25 then ["Elevated BMI (overweight) - metabolic impact"]
      else []
    else []
  let f2 : List String :=
    if req.smoking then
      if category = "cardiovascular" then
        f1 ++ ["Smoking - cardiovascular impact"]
      else if category = "respiratory" then
        f1 ++ ["Smoking - respiratory impact"]
      else f1
    else f1
  let f3 : List String :=
    if category = "cardiovascular" then
      if req.exercise_level = ExerciseLevel.sedentary ∨
          req.exercise_level = ExerciseLevel.light then
        f2 ++ ["Low exercise level - cardiovascular impact"]
      else if req.exercise_level = ExerciseLevel.active then
        f2 ++ ["Active lifestyle - cardiovascular protective"]
      else f2
    else f2
  let age_mult := ageMult category age_group
  if age_mult ≠ 1.0 then
    f3 ++ [if age_mult > 1.0 then
        "Age (" ++ toString req.age ++ ") - increased " ++ category ++ " risk"
      else
        "Age (" ++ toString req.age ++ ") - lower " ++ category ++ " risk"]
  else f3

/-- Loop body of `RiskCalculator._apply_lifestyle_factors` for one disease:
`(adjusted_risk, factors)`, the risk capped as `min(1.0, base_risk *
multiplier)`. -/
def apply_lifestyle_one (req : Request) (disease_id : String) (base_risk : ℚ) :
    ℚ × List String :=
  (min 1.0 (base_risk * lifestyle_multiplier req disease_id),
    lifestyle_factors_one req disease_id)

/-- `RiskCalculator._apply_lifestyle_factors`: builds the adjusted-risk dict and
the contributing-factors dict over the same keys, in iteration order. -/
def apply_lifestyle_factors (risks : List (String × ℚ)) (req : Request) :
    List (String × ℚ) × List (String × List String) :=
  (risks.map (fun p => (p.1, (apply_lifestyle_one req p.1 p.2).1)),
   risks.map (fun p => (p.1, (apply_lifestyle_one req p.1 p.2).2)))

/-- Row of the `diseases` table (fields selected by the engine's queries);
optional columns are `Option` (SQL null). -/
structure DiseaseRow where
  id : ℕ
  icd_code : String
  name_english : Option String
  prevalence_male : Option ℚ
  prevalence_female : Option ℚ
  prevalence_total : Option ℚ
  vector_x : Option ℚ
  vector_y : Option ℚ
  vector_z : Option ℚ
deriving DecidableEq, Repr

/-- Row of the `disease_relationships` table, with the joined ICD codes of the
two sides (`""` models a missing join, i.e. `other_disease.get("icd_code", "")`). -/
structure RelRow where
  disease_1_id : ℕ
  disease_2_id : ℕ
  odds_ratio : Option ℚ
  disease_1_code : String
  disease_2_code : String
deriving DecidableEq, Repr

/-- Dict lookup on an association list (first entry with the key). -/
def lookupQ (l : List (String × ℚ)) (c : String) : Option ℚ :=
  (l.find? (fun p => p.1 = c)).map Prod.snd

/-- Python `code in dict`. -/
def hasKey (l : List (String × ℚ)) (c : String) : Bool :=
  l.any (fun p => p.1 = c)

/-- Python `d[k] *= r` on the association-list model (multiplies the entry
with key `k`; dict keys are unique). -/
def mulAt (l : List (String × ℚ)) (k : String) (r : ℚ) : List (String × ℚ) :=
  l.map (fun p => if p.1 = k then (p.1, p.2 * r) else p)

/-- The "other" side of a relationship row: the joined code of the side that
is not matched as one of the user's condition ids (`""` when neither side
matches, modelling the loop's `continue`). -/
def rel_other_code (disease_ids : List ℕ) (rel : RelRow) : String :=
  if rel.disease_1_id ∈ disease_ids then rel.disease_2_code
  else if rel.disease_2_id ∈ disease_ids then rel.disease_1_code
  else ""

/-- Loop body of `RiskCalculator._apply_comorbidity_multipliers` for one
relationship row: determine the "other" side (`continue` when neither side is
one of the user's condition ids, modelled by the falsy code `""`), then
multiply in place when the other code is a key of the risk map and the odds
ratio is truthy and positive. -/
def apply_rel_row (disease_ids : List ℕ) (risks : List (String × ℚ))
    (rel : RelRow) : List (String × ℚ) :=
  let other_code := rel_other_code disease_ids rel
  if other_code ≠ "" ∧ hasKey risks other_code then
    match rel.odds_ratio with
    | some r => if r ≠ 0 ∧ r > 0 then mulAt risks other_code r else risks
    | none => risks
  else risks

/-- `RiskCalculator._apply_comorbidity_multipliers`: fold of `apply_rel_row`
over the fetched relationship rows, starting from a copy of the base risks. -/
def apply_comorbidity_multipliers (disease_ids : List ℕ) (rel_rows : List RelRow)
    (base_risks : List (String × ℚ)) : List (String × ℚ) :=
  rel_rows.foldl (apply_rel_row disease_ids) base_risks

/-- `RiskScore` output record (risk stored already rounded to 4 decimals). -/
structure RiskScore where
  disease_id : String
  disease_name : String
  risk : ℚ
  level : String
  contributing_factors : List String
deriving DecidableEq, Repr

/-- `RiskCalculator._classify_risk_level` (thresholds 0.75 / 0.50 / 0.25). -/
def classify_risk_level (risk_score : ℚ) : String :=
  if risk_score ≥ 0.75 then "very_high"
  else if risk_score ≥ 0.5 then "high"
  else if risk_score ≥ 0.25 then "moderate"
  else "low"

/-- Descending sort by a rational key, `l.sort(key=key, reverse=True)`. -/
def sortDescBy {α : Type} (key : α → ℚ) (l : List α) : List α :=
  @List.insertionSort α (fun a b => key b ≤ key a)
    (fun a b => inferInstanceAs (Decidable (key b ≤ key a))) l

/-- `RiskCalculator._convert_to_risk_scores`: filter (positive risk, not an
existing condition), attach names and factors (baseline label when empty),
classify, sort by stored risk descending, truncate to 50. -/
def convert_to_risk_scores (risks : List (String × ℚ))
    (contributing_factors : List (String × List String))
    (names : String → String) (existing_conditions : List String) :
    List RiskScore :=
  let filtered := risks.filter
    (fun p => p.2 > 0 ∧ p.1 ∉ existing_conditions)
  let scores := filtered.map (fun p =>
    let factors := ((contributing_factors.find? (fun q => q.1 = p.1)).map
      Prod.snd).getD []
    { disease_id := p.1
      disease_name := names p.1
      risk := round4 p.2
      level := classify_risk_level p.2
      contributing_factors :=
        if factors = [] then ["Population prevalence baseline"] else factors })
  (sortDescBy (fun s => s.risk) scores).take 50

/-- `UserPosition` output record. -/
structure UserPosition where
  x : ℚ
  y : ℚ
  z : ℚ
deriving DecidableEq, Repr

/-- Python truthiness default `w if w else 1.0` on an optional weight. -/
def weightOf (c : DiseaseRow) : ℚ :=
  match c.prevalence_total with
  | some w => if w = 0 then 1 else w
  | none => 1

/-- Clamped x coordinate used by the position loop (missing → 0.0). -/
def clampedX (c : DiseaseRow) : ℚ := clamp (-1) 1 (c.vector_x.getD 0)

/-- Clamped y coordinate used by the position loop (missing → 0.0). -/
def clampedY (c : DiseaseRow) : ℚ := clamp (-1) 1 (c.vector_y.getD 0)

/-- Clamped z coordinate used by the position loop (missing → 0.0). -/
def clampedZ (c : DiseaseRow) : ℚ := clamp (-1) 1 (c.vector_z.getD 0)

/-- Accumulator of `RiskCalculator._calculate_position`:
`(weighted_x, weighted_y, weighted_z, total_weight)`. -/
structure PosSums where
  wx : ℚ
  wy : ℚ
  wz : ℚ
  tw : ℚ
deriving DecidableEq, Repr

/-- One iteration of the accumulation loop of
`RiskCalculator._calculate_position`. -/
def position_step (acc : PosSums) (c : DiseaseRow) : PosSums :=
  { wx := acc.wx + clampedX c * weightOf c
    wy := acc.wy + clampedY c * weightOf c
    wz := acc.wz + clampedZ c * weightOf c
    tw := acc.tw + weightOf c }

/-- Accumulation loop of `RiskCalculator._calculate_position`. -/
def positionSums (conditions : List DiseaseRow) : PosSums :=
  conditions.foldl position_step { wx := 0, wy := 0, wz := 0, tw := 0 }

/-- `RiskCalculator._calculate_position`: weighted average of clamped
coordinates; origin for an empty list or zero total weight; each output axis
is the 4-decimal-rounded quotient clamped to `[-1, 1]`. -/
def calculate_position (conditions : List DiseaseRow) : UserPosition :=
  if conditions = [] then { x := 0, y := 0, z := 0 }
  else
    let s := positionSums conditions
    if s.tw = 0 then { x := 0, y := 0, z := 0 }
    else
      { x := clamp (-1) 1 (round4 (s.wx / s.tw))
        y := clamp (-1) 1 (round4 (s.wy / s.tw))
        z := clamp (-1) 1 (round4 (s.wz / s.tw)) }

/-- Coordinate record produced by `RiskCalculator._get_disease_coordinates`
(missing axes already defaulted to `0.0`). -/
structure Coord where
  x : ℚ
  y : ℚ
  z : ℚ
  name : String
deriving DecidableEq, Repr

/-- `RiskCalculator._get_disease_coordinates`: batch fetch of coordinates for
the given codes; `disease.get("vector_x") or 0.0` defaults falsy (null) axes
to `0.0`, and a falsy name to the code. -/
def get_disease_coordinates (rows : List DiseaseRow) (icd_codes : List String) :
    List (String × Coord) :=
  (rows.filter (fun r => r.icd_code ∈ icd_codes)).map
    (fun r =>
      (r.icd_code,
        { x := r.vector_x.getD 0
          y := r.vector_y.getD 0
          z := r.vector_z.getD 0
          name := match r.name_english with
            | some n => if n = "" then r.icd_code else n
            | none => r.icd_code }))

/-- `PullVector` output record (all numeric fields stored rounded to 4
decimals, as produced by the engine). -/
structure PullVector where
  disease_id : String
  disease_name : String
  risk : ℚ
  vector_x : ℚ
  vector_y : ℚ
  vector_z : ℚ
  magnitude : ℚ
deriving DecidableEq, Repr

/-- Loop body of `RiskCalculator._calculate_pull_vectors`: direction vector
`disease_pos - user_pos`, scaled per axis by the risk; magnitude is the
(4-decimal rounded) Euclidean norm of the scaled vector. -/
def mk_pull_vector (code : String) (coords : Coord) (risk : ℚ)
    (user_position : UserPosition) : PullVector :=
  let dx := coords.x - user_position.x
  let dy := coords.y - user_position.y
  let dz := coords.z - user_position.z
  let vector_x := dx * risk
  let vector_y := dy * risk
  let vector_z := dz * risk
  { disease_id := code
    disease_name := coords.name
    risk := round4 risk
    vector_x := round4 vector_x
    vector_y := round4 vector_y
    vector_z := round4 vector_z
    magnitude := roundSqrt4 (vector_x ^ 2 + vector_y ^ 2 + vector_z ^ 2) }

/-- `RiskCalculator._calculate_pull_vectors`: filter to risks above the
threshold, batch-fetch coordinates for exactly that set, skip codes whose
coordinates did not resolve, build the vectors, sort by magnitude
descending. -/
def calculate_pull_vectors (rows : List DiseaseRow) (risks : List (String × ℚ))
    (user_position : UserPosition) (threshold : ℚ) : List PullVector :=
  let high_risk_codes := (risks.filter (fun p => p.2 > threshold)).map Prod.fst
  let disease_coords := get_disease_coordinates rows high_risk_codes
  let pvs := high_risk_codes.filterMap (fun code =>
    match (disease_coords.find? (fun q => q.1 = code)).map Prod.snd with
    | none => none
    | some coords =>
      some (mk_pull_vector code coords ((lookupQ risks code).getD 0)
        user_position))
  sortDescBy (fun pv => pv.magnitude) pvs

/-- `RiskCalculator._get_conditions`: batch fetch of the disease rows whose
`icd_code` is among the requested codes (unknown codes are only logged). -/
def get_conditions (diseases : List DiseaseRow) (icd_codes : List String) :
    List DiseaseRow :=
  diseases.filter (fun r => r.icd_code ∈ icd_codes)

/-- Gender-specific prevalence column chosen by
`RiskCalculator._calculate_base_risks_for_all`. -/
def prevalence_field (g : Gender) (r : DiseaseRow) : Option ℚ :=
  match g with
  | Gender.male => r.prevalence_male
  | Gender.female => r.prevalence_female

/-- Base risk of one row:
`prevalence = disease.get(field) or disease.get("prevalence_total", 0.0)`,
then `float(prevalence) if prevalence else 0.0` (truthiness: null and 0 are
falsy). -/
def base_risk_of (g : Gender) (r : DiseaseRow) : ℚ :=
  let prevalence : ℚ :=
    match prevalence_field g r with
    | some v => if v = 0 then r.prevalence_total.getD 0 else v
    | none => r.prevalence_total.getD 0
  if prevalence = 0 then 0 else prevalence

/-- `RiskCalculator._calculate_base_risks_for_all`: one full-catalog fetch; a
data-store error is logged and yields an empty map.  Disease codes in the
table are unique, so the dict build is a plain map. -/
def calculate_base_risks_for_all (g : Gender)
    (fetch : Except Unit (List DiseaseRow)) : List (String × ℚ) :=
  match fetch with
  | Except.error _ => []
  | Except.ok rows => rows.map (fun r => (r.icd_code, base_risk_of g r))

/-- Name resolution of `RiskCalculator._get_disease_names` against the
diseases table: `name_english or code`, falling back to the code itself. -/
def disease_names (diseases : List DiseaseRow) (code : String) : String :=
  match (diseases.find? (fun r => r.icd_code = code)).map DiseaseRow.name_english with
  | some (some n) => if n = "" then code else n
  | some none => code
  | none => code

/-- `RiskCalculationResponse` (the `analysis_metadata` echo block is omitted:
it is a heterogeneous logging dict with no claim about it). -/
structure Response where
  risk_scores : List RiskScore
  user_position : UserPosition
  pull_vectors : List PullVector
  total_conditions_analyzed : ℕ
deriving DecidableEq, Repr

/-- Post-adjustment ("final") risk map of `RiskCalculator.calculate_risks`:
base risks, then comorbidity multipliers, then lifestyle/age adjustments. -/
def final_risks_of (diseases : List DiseaseRow) (rel_rows : List RelRow)
    (base_fetch : Except Unit (List DiseaseRow)) (req : Request) :
    List (String × ℚ) :=
  let base_risks := calculate_base_risks_for_all req.gender base_fetch
  let disease_ids :=
    (diseases.filter (fun r => r.icd_code ∈ req.existing_conditions)).map
      DiseaseRow.id
  let risks_with_comorbidity :=
    apply_comorbidity_multipliers disease_ids rel_rows base_risks
  (apply_lifestyle_factors risks_with_comorbidity req).1

/-- Contributing-factors map produced alongside `final_risks_of`. -/
def contributing_factors_of (diseases : List DiseaseRow)
    (rel_rows : List RelRow) (base_fetch : Except Unit (List DiseaseRow))
    (req : Request) : List (String × List String) :=
  let base_risks := calculate_base_risks_for_all req.gender base_fetch
  let disease_ids :=
    (diseases.filter (fun r => r.icd_code ∈ req.existing_conditions)).map
      DiseaseRow.id
  let risks_with_comorbidity :=
    apply_comorbidity_multipliers disease_ids rel_rows base_risks
  (apply_lifestyle_factors risks_with_comorbidity req).2

/-- `RiskCalculator.calculate_risks`: the seven-step pipeline.  The only
raised error is the `ValueError` when no existing condition resolves; a failed
base-risk fetch (`base_fetch = error`) degrades to an empty base map. -/
def calculate_risks (diseases : List DiseaseRow) (rel_rows : List RelRow)
    (base_fetch : Except Unit (List DiseaseRow)) (req : Request) :
    Except String Response :=
  let conditions := get_conditions diseases req.existing_conditions
  if conditions = [] then
    Except.error "No valid conditions found for provided ICD codes"
  else
    let final_risks := final_risks_of diseases rel_rows base_fetch req
    let contributing_factors :=
      contributing_factors_of diseases rel_rows base_fetch req
    let risk_scores := convert_to_risk_scores final_risks contributing_factors
      (disease_names diseases) req.existing_conditions
    let user_position := calculate_position conditions
    let pull_vectors :=
      calculate_pull_vectors diseases final_risks user_position 0.3
    Except.ok
      { risk_scores := risk_scores
        user_position := user_position
        pull_vectors := pull_vectors
        total_conditions_analyzed := conditions.length }

/-! ## Helper lemmas -/

theorem sorted_sortDescBy {α : Type} (key : α → ℚ) (l : List α) :
    List.Sorted (fun a b => key b ≤ key a) (sortDescBy key l) := by
  unfold sortDescBy
  exact @List.sorted_insertionSort α (fun a b => key b ≤ key a)
    (fun a b => inferInstanceAs (Decidable (key b ≤ key a)))
    ⟨fun a b => le_total (key b) (key a)⟩
    ⟨fun a b c hab hbc => le_trans hbc hab⟩ l

theorem perm_sortDescBy {α : Type} (key : α → ℚ) (l : List α) :
    (sortDescBy key l).Perm l := by
  unfold sortDescBy
  exact @List.perm_insertionSort α (fun a b => key b ≤ key a)
    (fun a b => inferInstanceAs (Decidable (key b ≤ key a))) l

theorem mem_sortDescBy {α : Type} {key : α → ℚ} {l : List α} {a : α} :
    a ∈ sortDescBy key l ↔ a ∈ l :=
  (perm_sortDescBy key l).mem_iff

theorem mulAt_keys (l : List (String × ℚ)) (k : String) (r : ℚ) :
    (mulAt l k r).map Prod.fst = l.map Prod.fst := by
  induction l with
  | nil => rfl
  | cons p t ih =>
    simp only [mulAt, List.map_cons] at ih ⊢
    by_cases h : p.1 = k <;> simp [h, ih]

theorem apply_rel_row_keys (ids : List ℕ) (l : List (String × ℚ)) (rel : RelRow) :
    (apply_rel_row ids l rel).map Prod.fst = l.map Prod.fst := by
  simp only [apply_rel_row]
  split_ifs with h1
  · cases rel.odds_ratio with
    | some r =>
      simp only
      split_ifs with h2
      · exact mulAt_keys l _ r
      · rfl
    | none => rfl
  · rfl

theorem apply_comorbidity_keys (ids : List ℕ) (rows : List RelRow)
    (l : List (String × ℚ)) :
    (apply_comorbidity_multipliers ids rows l).map Prod.fst = l.map Prod.fst := by
  induction rows generalizing l with
  | nil => rfl
  | cons rel t ih =>
    unfold apply_comorbidity_multipliers at ih ⊢
    simp only [List.foldl_cons]
    rw [ih, apply_rel_row_keys]

theorem apply_lifestyle_keys (risks : List (String × ℚ)) (req : Request) :
    (apply_lifestyle_factors risks req).1.map Prod.fst = risks.map Prod.fst := by
  simp [apply_lifestyle_factors, List.map_map, Function.comp]

/-- C10: the comorbidity stage and the lifestyle/age stage preserve the key
set (in fact, the exact key sequence) of the risk map; only values change. -/
theorem comorbidity_and_lifestyle_preserve_keys
    (ids : List ℕ) (rows : List RelRow) (risks : List (String × ℚ))
    (req : Request) :
    (apply_comorbidity_multipliers ids rows risks).map Prod.fst
        = risks.map Prod.fst
      ∧ (apply_lifestyle_factors risks req).1.map Prod.fst
        = risks.map Prod.fst :=
  ⟨apply_comorbidity_keys ids rows risks, apply_lifestyle_keys risks req⟩

/-! ## C2: comorbidity stage -/

theorem hasKey_iff_mem_keys (l : List (String × ℚ)) (c : String) :
    hasKey l c = true ↔ c ∈ l.map Prod.fst := by
  simp only [hasKey, List.any_eq_true, decide_eq_true_eq, List.mem_map]

theorem lookupQ_mulAt (l : List (String × ℚ)) (k c : String) (r : ℚ) :
    lookupQ (mulAt l k r) c =
      if c = k then (lookupQ l c).map (fun v => v * r) else lookupQ l c := by
  unfold lookupQ mulAt
  rw [List.find?_map]
  have hpred : ((fun p : String × ℚ => decide (p.1 = c)) ∘
      (fun p : String × ℚ => if p.1 = k then (p.1, p.2 * r) else p)) =
      (fun p : String × ℚ => decide (p.1 = c)) := by
    funext q
    by_cases hq : q.1 = k <;> simp [hq]
  rw [hpred]
  cases hfind : l.find? (fun p => p.1 = c) with
  | none => by_cases h : c = k <;> simp [h]
  | some q =>
    have hq : q.1 = c := by simpa using List.find?_some hfind
    by_cases h : c = k
    · subst h
      simp [Option.map_map, Function.comp, hq]
    · have hqk : ¬q.1 = k := fun hk => h (hq ▸ hk)
      simp [Option.map_map, Function.comp, hqk, h]

/-- Per-row multiplier described by the claim: the odds ratio when the row's
"other" disease is `c`, `c` is a key of the (initial) risk map and the odds
ratio is present and positive; otherwise `1` (no multiplication). -/
def comorbidity_factor (ids : List ℕ) (keys : List String) (c : String)
    (rel : RelRow) : ℚ :=
  if rel_other_code ids rel = c ∧ c ≠ "" ∧ c ∈ keys then
    match rel.odds_ratio with
    | some r => if 0 < r then r else 1
    | none => 1
  else 1

theorem lookupQ_apply_rel_row (ids : List ℕ) (l : List (String × ℚ))
    (rel : RelRow) (c : String) :
    lookupQ (apply_rel_row ids l rel) c =
      (lookupQ l c).map
        (fun v => v * comorbidity_factor ids (l.map Prod.fst) c rel) := by
  have hid : ∀ o : Option ℚ, o.map (fun v => v * 1) = o := by
    intro o; cases o <;> simp
  rcases hr : rel.odds_ratio with _ | r
  · simp only [apply_rel_row, comorbidity_factor, hr]
    split_ifs <;> exact (hid _).symm
  · simp only [apply_rel_row, comorbidity_factor, hr]
    by_cases hoc : rel_other_code ids rel = c
    · rw [hoc]
      by_cases hg : c ≠ "" ∧ hasKey l c = true
      · have hmem : c ∈ l.map Prod.fst := (hasKey_iff_mem_keys l c).mp hg.2
        rw [if_pos hg,
          if_pos (show c = c ∧ c ≠ "" ∧ c ∈ l.map Prod.fst from ⟨rfl, hg.1, hmem⟩)]
        by_cases hpos : 0 < r
        · rw [if_pos (show r ≠ 0 ∧ r > 0 from ⟨ne_of_gt hpos, hpos⟩),
            if_pos hpos, lookupQ_mulAt, if_pos rfl]
        · rw [if_neg (show ¬(r ≠ 0 ∧ r > 0) from fun h => hpos h.2), if_neg hpos]
          exact (hid _).symm
      · have hng : ¬(c = c ∧ c ≠ "" ∧ c ∈ l.map Prod.fst) := by
          intro h
          exact hg ⟨h.2.1, (hasKey_iff_mem_keys l c).mpr h.2.2⟩
        rw [if_neg hg, if_neg hng]
        exact (hid _).symm
    · have h2 : ¬(rel_other_code ids rel = c ∧ c ≠ "" ∧ c ∈ l.map Prod.fst) :=
        fun h => hoc h.1
      rw [if_neg h2]
      by_cases hg : rel_other_code ids rel ≠ "" ∧
          hasKey l (rel_other_code ids rel) = true
      · rw [if_pos hg]
        by_cases hpos : r ≠ 0 ∧ r > 0
        · rw [if_pos hpos, lookupQ_mulAt,
            if_neg (show ¬c = rel_other_code ids rel from fun h => hoc h.symm)]
          exact (hid _).symm
        · rw [if_neg hpos]
          exact (hid _).symm
      · rw [if_neg hg]
        exact (hid _).symm

theorem lookupQ_apply_comorbidity (ids : List ℕ) (rows : List RelRow)
    (l : List (String × ℚ)) (c : String) :
    lookupQ (apply_comorbidity_multipliers ids rows l) c =
      (lookupQ l c).map
        (fun v => v * (rows.map (comorbidity_factor ids (l.map Prod.fst) c)).prod) := by
  induction rows generalizing l with
  | nil =>
    simp only [apply_comorbidity_multipliers, List.foldl_nil, List.map_nil,
      List.prod_nil]
    cases lookupQ l c <;> simp
  | cons rel t ih =>
    unfold apply_comorbidity_multipliers at ih ⊢
    simp only [List.foldl_cons]
    rw [ih, apply_rel_row_keys, lookupQ_apply_rel_row]
    cases lookupQ l c <;> simp [mul_assoc]

/-- Concrete relationship row used in examples: existing condition id 1
related to code "X00" with odds ratio 2. -/
def exRelRow2 : RelRow :=
  { disease_1_id := 1
    disease_2_id := 7
    odds_ratio := some 2
    disease_1_code := "B00"
    disease_2_code := "X00" }

/-- Concrete relationship row: existing condition id 1 related to code "X00"
with odds ratio 3. -/
def exRelRow3 : RelRow :=
  { disease_1_id := 1
    disease_2_id := 7
    odds_ratio := some 3
    disease_1_code := "B00"
    disease_2_code := "X00" }

/-- C2: in the comorbidity stage, the final risk of every disease `c` equals
its incoming risk multiplied by the product, over all returned rows, of that
row's factor — the odds ratio when the row's "other" side is `c` (present in
the risk map) and the odds ratio is present and positive, else `1` (rows with
a non-positive or missing odds ratio multiply by nothing).  No cap is applied.
In particular a disease linked to two existing conditions with odds ratios
2.0 and 3.0 and base risk 0.1 comes out at exactly 0.6. -/
theorem comorbidity_stage_multiplicative :
    (∀ (ids : List ℕ) (rows : List RelRow) (l : List (String × ℚ)) (c : String),
      lookupQ (apply_comorbidity_multipliers ids rows l) c =
        (lookupQ l c).map
          (fun v => v *
            (rows.map (comorbidity_factor ids (l.map Prod.fst) c)).prod))
    ∧ apply_comorbidity_multipliers [1] [exRelRow2, exRelRow3] [("X00", 0.1)]
        = [("X00", 0.6)] :=
  ⟨lookupQ_apply_comorbidity, by
    norm_num +decide [apply_comorbidity_multipliers, apply_rel_row,
      rel_other_code, mulAt, hasKey, exRelRow2, exRelRow3]⟩

/-! ## C1: lifestyle/age adjustment stage -/

theorem fst_ite {P : Prop} [Decidable P] (a b : ℚ × List String) :
    (if P then a else b).1 = if P then a.1 else b.1 :=
  apply_ite Prod.fst P a b

/-- Composed multiplier described by claim C1: the product of the applicable
factor multipliers — BMI for metabolic, smoking for cardiovascular and
respiratory, exercise for cardiovascular, and the category-specific age-group
multiplier — with `1` for each factor that does not apply. -/
def spec_composed_multiplier (req : Request) (disease_id : String) : ℚ :=
  let category := get_disease_category disease_id
  (if category = "metabolic" then
      if req.bmi ≥ 30 then 1.5 else if req.bmi ≥ 25 then 1.2 else 1
    else 1)
  * (if req.smoking then
      if category = "cardiovascular" then 1.8
      else if category = "respiratory" then 1.6
      else 1
    else 1)
  * (if category = "cardiovascular" then
      if req.exercise_level = ExerciseLevel.sedentary ∨
          req.exercise_level = ExerciseLevel.light then 1.3
      else if req.exercise_level = ExerciseLevel.active then 0.7
      else 1
    else 1)
  * ageMult category (get_age_group req.age)

set_option maxHeartbeats 2000000 in
theorem lifestyle_multiplier_eq_spec (req : Request) (c : String) :
    lifestyle_multiplier req c = spec_composed_multiplier req c := by
  simp only [lifestyle_multiplier, spec_composed_multiplier]
  split_ifs <;> (try simp_all only [not_ne_iff]) <;> ring_nf

theorem apply_lifestyle_one_risk (req : Request) (c : String) (r : ℚ) :
    (apply_lifestyle_one req c r).1 =
      min 1 (r * spec_composed_multiplier req c) := by
  rw [apply_lifestyle_one, ← lifestyle_multiplier_eq_spec]
  norm_num

/-- Concrete request of claim C1's example: elderly (70), sedentary, smoker. -/
def exReqCardio : Request :=
  { age := 70
    gender := Gender.male
    bmi := 22
    existing_conditions := ["I10"]
    exercise_level := ExerciseLevel.sedentary
    smoking := true }

/-- C1: the lifestyle/age stage multiplies every incoming risk by the product
of the applicable factor multipliers (multiplier initialized to 1.0, BMI for
metabolic, smoking for cardiovascular/respiratory, exercise for
cardiovascular, category-specific age-group multiplier) and caps the result
at 1.0: the outgoing risk is `min 1 (risk * composed multiplier)`.  In
particular a cardiovascular disease with incoming risk 0.8 for an elderly,
sedentary smoker comes out at exactly 1.0. -/
theorem lifestyle_stage_composes_multiplicatively :
    (∀ (req : Request) (risks : List (String × ℚ)),
      (apply_lifestyle_factors risks req).1 =
        risks.map
          (fun p => (p.1, min 1 (p.2 * spec_composed_multiplier req p.1))))
    ∧ (apply_lifestyle_factors [("I10", 0.8)] exReqCardio).1 = [("I10", 1.0)] := by
  constructor
  · intro req risks
    simp only [apply_lifestyle_factors]
    have hfun : (fun p : String × ℚ =>
        (p.1, (apply_lifestyle_one req p.1 p.2).1)) =
        (fun p : String × ℚ =>
          (p.1, min 1 (p.2 * spec_composed_multiplier req p.1))) := by
      funext p
      rw [apply_lifestyle_one_risk]
    rw [hfun]
  · norm_num +decide [apply_lifestyle_factors, apply_lifestyle_one,
      lifestyle_multiplier, exReqCardio, get_disease_category,
      DISEASE_CATEGORIES, get_age_group, ageMult, AGE_MULTIPLIERS,
      ageTableCardiovascular]

/-! ## C3: result assembly -/

theorem round4_nonneg (r : ℚ) (h : 0 ≤ r) : 0 ≤ round4 r := by
  have hq : (0 : ℚ) ≤ r * 10000 := by positivity
  have hf : (0 : ℤ) ≤ ⌊r * 10000⌋ := Int.floor_nonneg.mpr hq
  have hrhe : (0 : ℤ) ≤ roundHalfEven (r * 10000) := by
    simp only [roundHalfEven]
    split_ifs <;> omega
  unfold round4
  have : (0 : ℚ) ≤ (roundHalfEven (r * 10000) : ℚ) := by exact_mod_cast hrhe
  positivity

theorem mem_convert_to_risk_scores {risks : List (String × ℚ)}
    {contributing_factors : List (String × List String)}
    {names : String → String} {existing_conditions : List String}
    {s : RiskScore}
    (hs : s ∈ convert_to_risk_scores risks contributing_factors names
      existing_conditions) :
    ∃ p ∈ risks, p.2 > 0 ∧ p.1 ∉ existing_conditions ∧
      s.disease_id = p.1 ∧ s.risk = round4 p.2 ∧
      s.level = classify_risk_level p.2 ∧
      s.contributing_factors =
        (if (((contributing_factors.find? (fun q => q.1 = p.1)).map
            Prod.snd).getD []) = []
          then ["Population prevalence baseline"]
          else (((contributing_factors.find? (fun q => q.1 = p.1)).map
            Prod.snd).getD [])) := by
  have hs1 := List.take_subset 50 _ hs
  rw [mem_sortDescBy] at hs1
  obtain ⟨p, hp, he⟩ := List.mem_map.mp hs1
  obtain ⟨hpr, hcond⟩ := List.mem_filter.mp hp
  have hcond' : p.2 > 0 ∧ p.1 ∉ existing_conditions := by
    simpa using hcond
  refine ⟨p, hpr, hcond'.1, hcond'.2, ?_, ?_, ?_, ?_⟩ <;>
    simp [← he]

/-- C3 (amended): the assembled risk list excludes every existing condition,
every entry stems from a strictly positive pre-rounding risk (so its stored,
4-decimal-rounded risk is ≥ 0, though it may round down to exactly 0), the
list is sorted by stored risk descending, and it has at most 50 entries. -/
theorem risk_scores_assembly_properties (risks : List (String × ℚ))
    (contributing_factors : List (String × List String))
    (names : String → String) (existing_conditions : List String) :
    (∀ s ∈ convert_to_risk_scores risks contributing_factors names
        existing_conditions, s.disease_id ∉ existing_conditions)
    ∧ (∀ s ∈ convert_to_risk_scores risks contributing_factors names
        existing_conditions,
        ∃ r : ℚ, (s.disease_id, r) ∈ risks ∧ 0 < r ∧ s.risk = round4 r ∧
          0 ≤ s.risk)
    ∧ List.Sorted (fun a b : RiskScore => b.risk ≤ a.risk)
        (convert_to_risk_scores risks contributing_factors names
          existing_conditions)
    ∧ (convert_to_risk_scores risks contributing_factors names
        existing_conditions).length ≤ 50 := by
  refine ⟨?_, ?_, ?_, ?_⟩
  · intro s hs
    obtain ⟨p, _, _, hnotex, hid, _⟩ := mem_convert_to_risk_scores hs
    rw [hid]
    exact hnotex
  · intro s hs
    obtain ⟨p, hmem, hpos, _, hid, hrisk, _⟩ := mem_convert_to_risk_scores hs
    exact ⟨p.2, by rw [hid]; exact hmem, hpos,
      hrisk, hrisk ▸ round4_nonneg p.2 (le_of_lt hpos)⟩
  · exact List.Pairwise.sublist (List.take_sublist 50 _)
      (sorted_sortDescBy (fun s : RiskScore => s.risk) _)
  · exact List.length_take_le 50 _

/-- Counterexample to C3 as stated: a disease with pre-rounding risk
`1/100000` passes the `risk > 0` filter, but its stored 4-decimal-rounded
risk is exactly 0, so the output contains an entry with risk ≤ 0. -/
theorem risk_scores_entry_rounded_to_zero :
    ∃ s ∈ convert_to_risk_scores [("A00", 1/100000)] [] (fun c => c) [],
      s.risk ≤ 0 := by
  have h4 : round4 (1/100000) = 0 := by norm_num [round4, roundHalfEven]
  have hL : convert_to_risk_scores [("A00", 1/100000)] [] (fun c => c) [] =
      [{ disease_id := "A00"
         disease_name := "A00"
         risk := round4 (1/100000)
         level := classify_risk_level (1/100000)
         contributing_factors := ["Population prevalence baseline"] }] := by
    norm_num +decide [convert_to_risk_scores, sortDescBy, List.insertionSort]
  rw [hL]
  exact ⟨_, List.mem_singleton.mpr rfl, le_of_eq h4⟩

/-- Concrete instantiation of the amended C3 theorem. -/
theorem risk_scores_assembly_properties_witness :
    ({ disease_id := "A00"
       disease_name := "A00"
       risk := round4 ((2:ℚ)/5)
       level := classify_risk_level ((2:ℚ)/5)
       contributing_factors := ["Population prevalence baseline"] } :
        RiskScore).disease_id ∉ ["B00"]
    ∧ (convert_to_risk_scores [("A00", (2:ℚ)/5), ("B00", (1:ℚ)/5)] []
        (fun c => c) ["B00"]).length ≤ 50 := by
  have hL : convert_to_risk_scores [("A00", (2:ℚ)/5), ("B00", (1:ℚ)/5)] []
      (fun c => c) ["B00"] =
      [{ disease_id := "A00"
         disease_name := "A00"
         risk := round4 ((2:ℚ)/5)
         level := classify_risk_level ((2:ℚ)/5)
         contributing_factors := ["Population prevalence baseline"] }] := by
    norm_num +decide [convert_to_risk_scores, sortDescBy, List.insertionSort]
  exact ⟨(risk_scores_assembly_properties [("A00", (2:ℚ)/5), ("B00", (1:ℚ)/5)]
      [] (fun c => c) ["B00"]).1 _ (hL ▸ List.mem_singleton_self _),
    (risk_scores_assembly_properties [("A00", (2:ℚ)/5), ("B00", (1:ℚ)/5)] []
      (fun c => c) ["B00"]).2.2.2⟩

/-! ## C5: position stage -/

theorem clamp_bounds (v : ℚ) : -1 ≤ clamp (-1) 1 v ∧ clamp (-1) 1 v ≤ 1 := by
  unfold clamp
  exact ⟨le_max_left _ _, max_le (by norm_num) (min_le_left _ _)⟩

theorem foldl_position_step (l : List DiseaseRow) (a : PosSums) :
    l.foldl position_step a =
      { wx := a.wx + (l.map (fun c => clampedX c * weightOf c)).sum
        wy := a.wy + (l.map (fun c => clampedY c * weightOf c)).sum
        wz := a.wz + (l.map (fun c => clampedZ c * weightOf c)).sum
        tw := a.tw + (l.map weightOf).sum } := by
  induction l generalizing a with
  | nil => simp
  | cons c t ih =>
    rw [List.foldl_cons, ih]
    simp only [position_step, List.map_cons, List.sum_cons, PosSums.mk.injEq]
    refine ⟨?_, ?_, ?_, ?_⟩ <;> ring

theorem positionSums_spec (l : List DiseaseRow) :
    positionSums l =
      { wx := (l.map (fun c => clampedX c * weightOf c)).sum
        wy := (l.map (fun c => clampedY c * weightOf c)).sum
        wz := (l.map (fun c => clampedZ c * weightOf c)).sum
        tw := (l.map weightOf).sum } := by
  unfold positionSums
  rw [foldl_position_step]
  simp

/-- C5: the position stage accumulates, over the resolved condition records,
per-axis sums of clamped coordinates weighted by `prevalence_total`
(defaulting to 1.0 when absent or zero); an empty list — and any zero total
weight — yields exactly the origin, and otherwise each output axis is the
clamped 4-decimal-rounded quotient, so it always lies in [-1, 1]. -/
theorem position_stage_weighted_average :
    (calculate_position [] = { x := 0, y := 0, z := 0 })
    ∧ (∀ c : DiseaseRow,
        c.prevalence_total = none ∨ c.prevalence_total = some 0 →
          weightOf c = 1)
    ∧ (∀ conditions : List DiseaseRow,
        positionSums conditions =
          { wx := (conditions.map (fun c => clampedX c * weightOf c)).sum
            wy := (conditions.map (fun c => clampedY c * weightOf c)).sum
            wz := (conditions.map (fun c => clampedZ c * weightOf c)).sum
            tw := (conditions.map weightOf).sum })
    ∧ (∀ conditions : List DiseaseRow, (positionSums conditions).tw = 0 →
        calculate_position conditions = { x := 0, y := 0, z := 0 })
    ∧ (∀ conditions : List DiseaseRow, conditions ≠ [] →
        (positionSums conditions).tw ≠ 0 →
        calculate_position conditions =
          { x := clamp (-1) 1
              (round4 ((positionSums conditions).wx / (positionSums conditions).tw))
            y := clamp (-1) 1
              (round4 ((positionSums conditions).wy / (positionSums conditions).tw))
            z := clamp (-1) 1
              (round4 ((positionSums conditions).wz / (positionSums conditions).tw)) })
    ∧ (∀ conditions : List DiseaseRow,
        -1 ≤ (calculate_position conditions).x ∧
          (calculate_position conditions).x ≤ 1 ∧
          -1 ≤ (calculate_position conditions).y ∧
          (calculate_position conditions).y ≤ 1 ∧
          -1 ≤ (calculate_position conditions).z ∧
          (calculate_position conditions).z ≤ 1) := by
  refine ⟨rfl, ?_, positionSums_spec, ?_, ?_, ?_⟩
  · intro c h
    rcases h with h | h <;> simp [weightOf, h]
  · intro conditions htw
    unfold calculate_position
    by_cases hc : conditions = []
    · rw [if_pos hc]
    · rw [if_neg hc, if_pos htw]
  · intro conditions hne htw
    unfold calculate_position
    rw [if_neg hne, if_neg htw]
  · intro conditions
    unfold calculate_position
    by_cases hc : conditions = []
    · rw [if_pos hc]
      norm_num
    · rw [if_neg hc]
      by_cases htw : (positionSums conditions).tw = 0
      · rw [if_pos htw]
        norm_num
      · rw [if_neg htw]
        exact ⟨(clamp_bounds _).1, (clamp_bounds _).2, (clamp_bounds _).1,
          (clamp_bounds _).2, (clamp_bounds _).1, (clamp_bounds _).2⟩

/-- Concrete condition record with out-of-range coordinates and an explicit
prevalence weight, used to instantiate C5. -/
def exPosRow : DiseaseRow :=
  { id := 2
    icd_code := "E11"
    name_english := some "Diabetes"
    prevalence_male := none
    prevalence_female := none
    prevalence_total := some 2
    vector_x := some 5
    vector_y := some (-3)
    vector_z := some (5/2) }

/-- Concrete instantiation of C5's non-degenerate branch. -/
theorem position_stage_weighted_average_witness :
    ([exPosRow] ≠ ([] : List DiseaseRow))
    ∧ (positionSums [exPosRow]).tw ≠ 0
    ∧ calculate_position [exPosRow] =
        { x := clamp (-1) 1
            (round4 ((positionSums [exPosRow]).wx / (positionSums [exPosRow]).tw))
          y := clamp (-1) 1
            (round4 ((positionSums [exPosRow]).wy / (positionSums [exPosRow]).tw))
          z := clamp (-1) 1
            (round4 ((positionSums [exPosRow]).wz / (positionSums [exPosRow]).tw)) } :=
  ⟨by decide,
   by norm_num [positionSums, position_step, weightOf, exPosRow],
   position_stage_weighted_average.2.2.2.2.1 [exPosRow] (by decide)
     (by norm_num [positionSums, position_step, weightOf, exPosRow])⟩

/-! ## Square-root rounding: correctness of the integer-sqrt embedding -/

theorem ratFloorSqrt_correct (q : ℚ) (hq : 0 ≤ q) :
    ((ratFloorSqrt q : ℚ)) ^ 2 ≤ q ∧ q < ((ratFloorSqrt q : ℚ) + 1) ^ 2 := by
  have hb : 0 < q.den := q.den_pos
  have hnum : 0 ≤ q.num := Rat.num_nonneg.mpr hq
  set a : ℕ := q.num.toNat with ha
  set b : ℕ := q.den with hbdef
  have haq : (a : ℤ) = q.num := Int.toNat_of_nonneg hnum
  have hqab : q = (a : ℚ) / (b : ℚ) := by
    rw [← Rat.num_div_den q]
    congr 1
    · exact_mod_cast haq.symm
  set s : ℕ := Nat.sqrt (a * b) with hs
  set n : ℕ := s / b with hn
  have hrfs : ratFloorSqrt q = n := rfl
  have h1 : s * s ≤ a * b := Nat.sqrt_le (a * b)
  have h2 : a * b < (s + 1) * (s + 1) := Nat.lt_succ_sqrt (a * b)
  have h3 : n * b ≤ s := Nat.div_mul_le_self s b
  have h4 : s < (n + 1) * b := by
    have hdm := Nat.div_add_mod s b
    have hmod := Nat.mod_lt s hb
    calc s = b * (s / b) + s % b := hdm.symm
      _ < b * (s / b) + b := by omega
      _ = (s / b + 1) * b := by ring
  have hbq : (0 : ℚ) < (b : ℚ) := by exact_mod_cast hb
  constructor
  · rw [hrfs, hqab, le_div_iff₀ hbq]
    have k0 : (n * b) * (n * b) ≤ s * s := Nat.mul_le_mul h3 h3
    have k1 : (n ^ 2 * b) * b ≤ a * b := by
      calc (n ^ 2 * b) * b = (n * b) * (n * b) := by ring
        _ ≤ s * s := k0
        _ ≤ a * b := h1
    have k2 : n ^ 2 * b ≤ a := Nat.le_of_mul_le_mul_right k1 hb
    exact_mod_cast k2
  · rw [hrfs, hqab, div_lt_iff₀ hbq]
    have k3 : s + 1 ≤ (n + 1) * b := h4
    have k4 : a * b < ((n + 1) * b) * ((n + 1) * b) :=
      lt_of_lt_of_le h2 (Nat.mul_le_mul k3 k3)
    have k5 : (a : ℕ) * b < ((n + 1) ^ 2 * b) * b := by
      calc a * b < ((n + 1) * b) * ((n + 1) * b) := k4
        _ = ((n + 1) ^ 2 * b) * b := by ring
    have k6 : a < (n + 1) ^ 2 * b := Nat.lt_of_mul_lt_mul_right k5
    exact_mod_cast k6

set_option maxHeartbeats 1000000 in
theorem roundSqrtHalfEven_close (q : ℚ) (hq : 0 ≤ q) :
    |((roundSqrtHalfEven q : ℕ) : ℝ) - Real.sqrt ((q : ℚ) : ℝ)| ≤ 1 / 2 := by
  obtain ⟨hlo, hhi⟩ := ratFloorSqrt_correct q hq
  set n : ℕ := ratFloorSqrt q with hn
  have hqr : (0 : ℝ) ≤ ((q : ℚ) : ℝ) := by exact_mod_cast hq
  have hloR : ((n : ℝ)) ^ 2 ≤ ((q : ℚ) : ℝ) := by exact_mod_cast hlo
  have hhiR : ((q : ℚ) : ℝ) < ((n : ℝ) + 1) ^ 2 := by exact_mod_cast hhi
  set r : ℝ := Real.sqrt ((q : ℚ) : ℝ) with hr
  have hr0 : 0 ≤ r := Real.sqrt_nonneg _
  have hnr : (n : ℝ) ≤ r := by
    rw [hr, Real.le_sqrt (by positivity) hqr]
    exact hloR
  have hrn1 : r < (n : ℝ) + 1 := by
    rw [hr, Real.sqrt_lt' (by positivity)]
    exact hhiR
  unfold roundSqrtHalfEven
  rw [← hn]
  by_cases hA : 4 * q < ((2 * n + 1 : ℕ) : ℚ) ^ 2
  · rw [if_pos hA]
    have hAR : ((q : ℚ) : ℝ) < ((n : ℝ) + 1 / 2) ^ 2 := by
      have : ((4 : ℚ) * q : ℚ) < (((2 * n + 1 : ℕ) : ℚ)) ^ 2 := hA
      have h4R : (4 : ℝ) * ((q : ℚ) : ℝ) < ((2 * (n : ℝ) + 1)) ^ 2 := by
        exact_mod_cast this
      nlinarith [h4R]
    have hrlt : r < (n : ℝ) + 1 / 2 := by
      rw [hr, Real.sqrt_lt' (by positivity)]
      exact hAR
    rw [abs_le]
    constructor <;> nlinarith [hnr, hrlt]
  · rw [if_neg hA]
    by_cases hB : 4 * q > ((2 * n + 1 : ℕ) : ℚ) ^ 2
    · rw [if_pos hB]
      have hBR : ((n : ℝ) + 1 / 2) ^ 2 < ((q : ℚ) : ℝ) := by
        have h4R : ((2 * (n : ℝ) + 1)) ^ 2 < (4 : ℝ) * ((q : ℚ) : ℝ) := by
          exact_mod_cast hB
        nlinarith [h4R]
      have hrgt : (n : ℝ) + 1 / 2 < r := by
        rw [hr, Real.lt_sqrt (by positivity)]
        exact hBR
      rw [abs_le]
      push_cast
      constructor <;> nlinarith [hrgt, hrn1]
    · have hC : 4 * q = ((2 * n + 1 : ℕ) : ℚ) ^ 2 := le_antisymm (not_lt.mp hB) (not_lt.mp hA)
      have hqC : ((q : ℚ) : ℝ) = ((n : ℝ) + 1 / 2) ^ 2 := by
        have h4R : (4 : ℝ) * ((q : ℚ) : ℝ) = ((2 * (n : ℝ) + 1)) ^ 2 := by
          exact_mod_cast hC
        nlinarith [h4R]
      have hrC : r = (n : ℝ) + 1 / 2 := by
        rw [hr, hqC, Real.sqrt_sq (by positivity)]
      split_ifs <;> rw [hrC] <;> rw [abs_le] <;> push_cast <;>
        constructor <;> nlinarith []

theorem roundSqrt4_close (sq : ℚ) (h : 0 ≤ sq) :
    |((roundSqrt4 sq : ℚ) : ℝ) - Real.sqrt ((sq : ℚ) : ℝ)| ≤ 1 / 20000 := by
  have hq : (0 : ℚ) ≤ sq * 10 ^ 8 := by positivity
  have h1 := roundSqrtHalfEven_close (sq * 10 ^ 8) hq
  have hsqrtmul : Real.sqrt ((sq * 10 ^ 8 : ℚ) : ℝ) =
      Real.sqrt ((sq : ℚ) : ℝ) * 10 ^ 4 := by
    have hcast : ((sq * 10 ^ 8 : ℚ) : ℝ) = ((sq : ℚ) : ℝ) * 10 ^ 8 := by
      push_cast
      ring
    rw [hcast, Real.sqrt_mul (by exact_mod_cast h) (10 ^ 8)]
    congr 1
    have : ((10 : ℝ) ^ 8) = (10 ^ 4) ^ 2 := by norm_num
    rw [this, Real.sqrt_sq (by positivity)]
  have hval : ((roundSqrt4 sq : ℚ) : ℝ) =
      ((roundSqrtHalfEven (sq * 10 ^ 8) : ℕ) : ℝ) / 10 ^ 4 := by
    unfold roundSqrt4
    push_cast
    ring
  rw [hval]
  have key : ((roundSqrtHalfEven (sq * 10 ^ 8) : ℕ) : ℝ) / 10 ^ 4 -
      Real.sqrt ((sq : ℚ) : ℝ) =
      (((roundSqrtHalfEven (sq * 10 ^ 8) : ℕ) : ℝ) -
        Real.sqrt ((sq * 10 ^ 8 : ℚ) : ℝ)) / 10 ^ 4 := by
    rw [hsqrtmul]
    field_simp
    ring
  rw [key, abs_div]
  have h104 : |((10 : ℝ) ^ 4)| = 10 ^ 4 := by norm_num
  rw [h104]
  rw [div_le_iff₀ (by norm_num : (0:ℝ) < 10 ^ 4)]
  calc |((roundSqrtHalfEven (sq * 10 ^ 8) : ℕ) : ℝ) -
      Real.sqrt ((sq * 10 ^ 8 : ℚ) : ℝ)| ≤ 1 / 2 := h1
    _ = 1 / 20000 * 10 ^ 4 := by norm_num

theorem roundSqrt4_zero : roundSqrt4 0 = 0 := by
  norm_num [roundSqrt4, roundSqrtHalfEven, ratFloorSqrt]

/-! ## C6 and C4: pull-vector stage -/

theorem lookupQ_eq_some_of_mem_nodup {l : List (String × ℚ)} {c : String}
    {v : ℚ} (hnd : (l.map Prod.fst).Nodup) (hmem : (c, v) ∈ l) :
    lookupQ l c = some v := by
  induction l with
  | nil => cases hmem
  | cons p t ih =>
    rcases List.mem_cons.mp hmem with he | ht
    · rw [← he]
      simp [lookupQ, List.find?_cons_of_pos]
    · have hnd' : (t.map Prod.fst).Nodup := (List.nodup_cons.mp hnd).2
      have hp1 : p.1 ∉ t.map Prod.fst := (List.nodup_cons.mp hnd).1
      have hc : c ∈ t.map Prod.fst :=
        List.mem_map.mpr ⟨(c, v), ht, rfl⟩
      have hne : ¬p.1 = c := fun h => hp1 (h ▸ hc)
      unfold lookupQ
      rw [List.find?_cons_of_neg _ (by simpa using hne)]
      exact ih hnd' ht

theorem find?_filter_of_imp {α : Type} (l : List α) (p q : α → Bool)
    (h : ∀ a, p a = true → q a = true) :
    (l.filter q).find? p = l.find? p := by
  induction l with
  | nil => rfl
  | cons a t ih =>
    by_cases hq : q a = true
    · rw [List.filter_cons_of_pos hq]
      by_cases hp : p a = true
      · rw [List.find?_cons_of_pos _ hp, List.find?_cons_of_pos _ hp]
      · rw [List.find?_cons_of_neg _ (by simpa using hp),
          List.find?_cons_of_neg _ (by simpa using hp), ih]
    · have hp : ¬p a = true := fun hpa => hq (h a hpa)
      rw [List.filter_cons_of_neg (by simpa using hq),
        List.find?_cons_of_neg _ (by simpa using hp), ih]

theorem filterMap_map_self {α β : Type} (l : List α) (g : α → Option β) :
    l.filterMap (fun a => (g a).map (fun _ => a)) =
      l.filter (fun a => (g a).isSome) := by
  induction l with
  | nil => rfl
  | cons a t ih =>
    cases hg : g a <;> simp [List.filterMap_cons, List.filter_cons, hg, ih]

theorem isSome_map_option {α β : Type} (o : Option α) (f : α → β) :
    (o.map f).isSome = o.isSome := by
  cases o <;> rfl

theorem pull_vectors_ids (rows : List DiseaseRow) (risks : List (String × ℚ))
    (pos : UserPosition) (t : ℚ) :
    ((calculate_pull_vectors rows risks pos t).map PullVector.disease_id).Perm
      ((risks.filter (fun p => p.2 > t ∧
        rows.any (fun row => row.icd_code = p.1) = true)).map Prod.fst) := by
  unfold calculate_pull_vectors
  refine ((perm_sortDescBy _ _).map _).trans ?_
  rw [List.map_filterMap]
  have hstep : ∀ code : String,
      (Option.map PullVector.disease_id
        (match (((get_disease_coordinates rows
            ((risks.filter (fun p => p.2 > t)).map Prod.fst)).find?
            (fun q => q.1 = code)).map Prod.snd) with
          | none => none
          | some coords =>
            some (mk_pull_vector code coords ((lookupQ risks code).getD 0) pos))) =
      ((((get_disease_coordinates rows
          ((risks.filter (fun p => p.2 > t)).map Prod.fst)).find?
          (fun q => q.1 = code)).map Prod.snd).map (fun _ => code)) := by
    intro code
    cases ((get_disease_coordinates rows
        ((risks.filter (fun p => p.2 > t)).map Prod.fst)).find?
        (fun q => q.1 = code)).map Prod.snd <;> rfl
  rw [List.filterMap_congr (fun code _ => hstep code)]
  rw [filterMap_map_self]
  have hresolve : ∀ code ∈ (risks.filter (fun p => p.2 > t)).map Prod.fst,
      ((((get_disease_coordinates rows
          ((risks.filter (fun p => p.2 > t)).map Prod.fst)).find?
          (fun q => q.1 = code)).map Prod.snd).isSome : Bool) =
        rows.any (fun row => row.icd_code = code) := by
    intro code hcode
    rw [isSome_map_option]
    unfold get_disease_coordinates
    rw [List.find?_map]
    rw [isSome_map_option]
    rw [find?_filter_of_imp]
    · rcases hfind : List.find? _ rows with _ | row
      · simp only [Option.isSome_none]
        rw [List.find?_eq_none] at hfind
        symm
        rw [Bool.eq_false_iff]
        intro hany
        obtain ⟨row, hrow, hicd⟩ := List.any_eq_true.mp hany
        exact absurd hicd (by simpa using hfind row hrow)
      · simp only [Option.isSome_some]
        symm
        rw [List.any_eq_true]
        refine ⟨row, List.mem_of_find?_eq_some hfind, ?_⟩
        simpa using List.find?_some hfind
    · intro row hrow
      have : row.icd_code = code := by simpa using hrow
      simpa [this] using hcode
  rw [List.filter_congr hresolve]
  rw [List.filter_map, List.filter_filter]
  refine List.Perm.of_eq ?_
  congr 1
  apply List.filter_congr
  intro p _
  rw [Bool.eq_iff_iff]
  simp [Bool.decide_and, List.any_eq_true, Function.comp]
  tauto

theorem mem_calculate_pull_vectors {rows : List DiseaseRow}
    {risks : List (String × ℚ)} {pos : UserPosition} {t : ℚ} {pv : PullVector}
    (hpv : pv ∈ calculate_pull_vectors rows risks pos t) :
    ∃ (code : String) (row : DiseaseRow),
      row ∈ rows ∧ row.icd_code = code ∧
      code ∈ (risks.filter (fun p => p.2 > t)).map Prod.fst ∧
      pv = mk_pull_vector code
        { x := row.vector_x.getD 0
          y := row.vector_y.getD 0
          z := row.vector_z.getD 0
          name := match row.name_english with
            | some n => if n = "" then row.icd_code else n
            | none => row.icd_code }
        ((lookupQ risks code).getD 0) pos := by
  unfold calculate_pull_vectors at hpv
  rw [mem_sortDescBy] at hpv
  obtain ⟨code, hcode, hf⟩ := List.mem_filterMap.mp hpv
  rcases hfind : ((get_disease_coordinates rows
      ((risks.filter (fun p => p.2 > t)).map Prod.fst)).find?
      (fun q => q.1 = code)).map Prod.snd with _ | coords
  · rw [hfind] at hf
    cases hf
  · rw [hfind] at hf
    have hpveq : pv = mk_pull_vector code coords ((lookupQ risks code).getD 0)
        pos := by
      cases hf
      rfl
    rcases hfe : (get_disease_coordinates rows
        ((risks.filter (fun p => p.2 > t)).map Prod.fst)).find?
        (fun q => q.1 = code) with _ | e
    · rw [hfe] at hfind
      cases hfind
    · rw [hfe] at hfind
      have he2 : e.2 = coords := by
        simpa using hfind
      have he1 : e.1 = code := by
        simpa using List.find?_some hfe
      have hemem := List.mem_of_find?_eq_some hfe
      unfold get_disease_coordinates at hemem
      obtain ⟨row, hrowf, hrow⟩ := List.mem_map.mp hemem
      have hrowmem : row ∈ rows := (List.mem_filter.mp hrowf).1
      refine ⟨code, row, hrowmem, ?_, hcode, ?_⟩
      · rw [← he1, ← hrow]
      · rw [hpveq]
        congr 1
        rw [← he2, ← hrow]

/-- C6: the pull-vector stage emits one entry per disease with post-adjustment
risk strictly above 0.3 whose coordinates resolve (unresolvable ones are
dropped); each entry's vector is the elementwise difference disease
coordinate minus user position, scaled per axis by that disease's risk (the
stored components are 4-decimal roundings); its stored magnitude is the
4-decimal rounding of the Euclidean norm of the scaled vector (within half an
ulp, and exactly 0.0 for a disease coincident with the user position); and
the list is sorted by magnitude descending. -/
theorem pull_vector_stage_spec (rows : List DiseaseRow)
    (risks : List (String × ℚ)) (pos : UserPosition)
    (hnd : (risks.map Prod.fst).Nodup) :
    ((calculate_pull_vectors rows risks pos 0.3).map PullVector.disease_id).Perm
      ((risks.filter (fun p => p.2 > 0.3 ∧
        rows.any (fun row => row.icd_code = p.1) = true)).map Prod.fst)
    ∧ (∀ pv ∈ calculate_pull_vectors rows risks pos 0.3,
        ∃ (code : String) (r : ℚ) (row : DiseaseRow),
          row ∈ rows ∧ row.icd_code = code ∧ lookupQ risks code = some r ∧
          r > 0.3 ∧ pv.disease_id = code ∧ pv.risk = round4 r ∧
          pv.vector_x = round4 ((row.vector_x.getD 0 - pos.x) * r) ∧
          pv.vector_y = round4 ((row.vector_y.getD 0 - pos.y) * r) ∧
          pv.vector_z = round4 ((row.vector_z.getD 0 - pos.z) * r) ∧
          |((pv.magnitude : ℚ) : ℝ) -
            Real.sqrt ((((row.vector_x.getD 0 - pos.x) * r) ^ 2 +
              ((row.vector_y.getD 0 - pos.y) * r) ^ 2 +
              ((row.vector_z.getD 0 - pos.z) * r) ^ 2 : ℚ) : ℝ)| ≤ 1 / 20000 ∧
          (row.vector_x.getD 0 = pos.x ∧ row.vector_y.getD 0 = pos.y ∧
            row.vector_z.getD 0 = pos.z → pv.magnitude = 0))
    ∧ List.Sorted (fun a b : PullVector => b.magnitude ≤ a.magnitude)
        (calculate_pull_vectors rows risks pos 0.3) := by
  refine ⟨pull_vectors_ids rows risks pos 0.3, ?_, ?_⟩
  · intro pv hpv
    obtain ⟨code, row, hrowmem, hicd, hcode, hpveq⟩ :=
      mem_calculate_pull_vectors hpv
    obtain ⟨p, hpf, hp1⟩ := List.mem_map.mp hcode
    obtain ⟨hpmem, hpcond⟩ := List.mem_filter.mp hpf
    have hpgt : p.2 > 0.3 := by simpa using hpcond
    have hlook : lookupQ risks code = some p.2 := by
      apply lookupQ_eq_some_of_mem_nodup hnd
      rw [← hp1]
      exact hpmem
    have hgetd : (lookupQ risks code).getD 0 = p.2 := by
      rw [hlook]
      rfl
    refine ⟨code, p.2, row, hrowmem, hicd, hlook, hpgt, ?_, ?_, ?_, ?_, ?_,
      ?_, ?_⟩
    · rw [hpveq]
      rfl
    · rw [hpveq, hgetd]
      rfl
    · rw [hpveq, hgetd]
      rfl
    · rw [hpveq, hgetd]
      rfl
    · rw [hpveq, hgetd]
      rfl
    · rw [hpveq, hgetd]
      exact roundSqrt4_close _ (by positivity)
    · intro hco
      rw [hpveq, hgetd]
      have hzero : ((row.vector_x.getD 0 - pos.x) * p.2) ^ 2 +
          ((row.vector_y.getD 0 - pos.y) * p.2) ^ 2 +
          ((row.vector_z.getD 0 - pos.z) * p.2) ^ 2 = 0 := by
        rw [hco.1, hco.2.1, hco.2.2]
        ring
      show roundSqrt4 _ = 0
      rw [hzero, roundSqrt4_zero]
  · exact sorted_sortDescBy (fun pv : PullVector => pv.magnitude) _

/-- Concrete disease row with an out-of-range x coordinate (2.0). -/
def exCoordRow : DiseaseRow :=
  { id := 5
    icd_code := "X00"
    name_english := some "Xd"
    prevalence_male := some (1/2)
    prevalence_female := some (1/2)
    prevalence_total := some (1/2)
    vector_x := some 2
    vector_y := some 0
    vector_z := some 0 }

/-- Concrete instantiation of C6 (sortedness conjunct). -/
theorem pull_vector_stage_spec_witness :
    List.Sorted (fun a b : PullVector => b.magnitude ≤ a.magnitude)
      (calculate_pull_vectors [exCoordRow] [("X00", (1:ℚ)/2)]
        { x := 0, y := 0, z := 0 } 0.3) :=
  (pull_vector_stage_spec [exCoordRow] [("X00", (1:ℚ)/2)]
    { x := 0, y := 0, z := 0 } (by decide)).2.2

/-- Variant described by claim C4: identical to `calculate_pull_vectors`, but
with every fetched disease coordinate clamped per axis to [-1, 1] before the
vector (disease coordinate − user position) is computed.  The engine's
`_calculate_pull_vectors` performs no such clamping; this definition exists
only to compare the claim's words against the code. -/
def calculate_pull_vectors_clamped (rows : List DiseaseRow)
    (risks : List (String × ℚ)) (user_position : UserPosition) (threshold : ℚ) :
    List PullVector :=
  let high_risk_codes := (risks.filter (fun p => p.2 > threshold)).map Prod.fst
  let disease_coords := get_disease_coordinates rows high_risk_codes
  let pvs := high_risk_codes.filterMap (fun code =>
    match (disease_coords.find? (fun q => q.1 = code)).map Prod.snd with
    | none => none
    | some coords =>
      some (mk_pull_vector code
        { x := clamp (-1) 1 coords.x
          y := clamp (-1) 1 coords.y
          z := clamp (-1) 1 coords.z
          name := coords.name }
        ((lookupQ risks code).getD 0) user_position))
  sortDescBy (fun pv => pv.magnitude) pvs

/-- Counterexample to C4 as stated: for a disease at x = 2.0 with risk 0.5 and
the user at the origin, the engine emits vector_x = 1.0 (2.0 · 0.5, from the
raw coordinate), while clamping the coordinate before use would give 0.5
(1.0 · 0.5) — so coordinates are not clamped in the pull-vector stage. -/
theorem pull_vector_coordinates_not_clamped :
    ((calculate_pull_vectors [exCoordRow] [("X00", (1:ℚ)/2)]
        { x := 0, y := 0, z := 0 } 0.3).map (fun pv => pv.vector_x)) = [1]
    ∧ ((calculate_pull_vectors_clamped [exCoordRow] [("X00", (1:ℚ)/2)]
        { x := 0, y := 0, z := 0 } 0.3).map (fun pv => pv.vector_x)) = [1/2]
    ∧ ((calculate_pull_vectors [exCoordRow] [("X00", (1:ℚ)/2)]
        { x := 0, y := 0, z := 0 } 0.3).map (fun pv => pv.vector_x)) ≠
      ((calculate_pull_vectors_clamped [exCoordRow] [("X00", (1:ℚ)/2)]
        { x := 0, y := 0, z := 0 } 0.3).map (fun pv => pv.vector_x)) := by
  refine ⟨?_, ?_, ?_⟩
  · norm_num +decide [calculate_pull_vectors, get_disease_coordinates,
      mk_pull_vector, sortDescBy, List.insertionSort, exCoordRow, lookupQ,
      round4, roundHalfEven]
  · norm_num +decide [calculate_pull_vectors_clamped, get_disease_coordinates,
      mk_pull_vector, sortDescBy, List.insertionSort, exCoordRow, lookupQ,
      round4, roundHalfEven, clamp]
  · intro h
    rw [show ((calculate_pull_vectors [exCoordRow] [("X00", (1:ℚ)/2)]
        { x := 0, y := 0, z := 0 } 0.3).map (fun pv => pv.vector_x)) = [1] from by
          norm_num +decide [calculate_pull_vectors, get_disease_coordinates,
            mk_pull_vector, sortDescBy, List.insertionSort, exCoordRow, lookupQ,
            round4, roundHalfEven]] at h
    rw [show ((calculate_pull_vectors_clamped [exCoordRow] [("X00", (1:ℚ)/2)]
        { x := 0, y := 0, z := 0 } 0.3).map (fun pv => pv.vector_x)) = [1/2] from by
          norm_num +decide [calculate_pull_vectors_clamped,
            get_disease_coordinates, mk_pull_vector, sortDescBy,
            List.insertionSort, exCoordRow, lookupQ, round4, roundHalfEven,
            clamp]] at h
    norm_num at h

theorem clamp_idem (v : ℚ) :
    clamp (-1) 1 (clamp (-1) 1 v) = clamp (-1) 1 v := by
  simp only [clamp, max_def, min_def]
  split_ifs <;> linarith

/-- Row with its three coordinates replaced by their clamped-with-default
values, used to express that the position stage is insensitive to
out-of-range inputs. -/
def clamp_row_coords (c : DiseaseRow) : DiseaseRow :=
  { c with
    vector_x := some (clamp (-1) 1 (c.vector_x.getD 0))
    vector_y := some (clamp (-1) 1 (c.vector_y.getD 0))
    vector_z := some (clamp (-1) 1 (c.vector_z.getD 0)) }

/-- C4 (amended): disease coordinates are clamped to [-1, 1] per axis before
use in the position stage only — pre-clamping its inputs is a no-op — while
the pull-vector stage computes every vector from the raw fetched coordinates
(missing axes defaulting to 0.0) without clamping. -/
theorem coordinates_clamped_only_in_position_stage :
    (∀ conditions : List DiseaseRow,
      calculate_position (conditions.map clamp_row_coords) =
        calculate_position conditions)
    ∧ (∀ (rows : List DiseaseRow) (risks : List (String × ℚ))
        (pos : UserPosition) (t : ℚ), ∀ pv ∈ calculate_pull_vectors rows risks pos t,
        ∃ (code : String) (row : DiseaseRow), row ∈ rows ∧
          row.icd_code = code ∧
          pv = mk_pull_vector code
            { x := row.vector_x.getD 0
              y := row.vector_y.getD 0
              z := row.vector_z.getD 0
              name := match row.name_english with
                | some n => if n = "" then row.icd_code else n
                | none => row.icd_code }
            ((lookupQ risks code).getD 0) pos) := by
  constructor
  · intro conditions
    have hstep : ∀ (acc : PosSums) (c : DiseaseRow),
        position_step acc (clamp_row_coords c) = position_step acc c := by
      intro acc c
      unfold position_step clamp_row_coords clampedX clampedY clampedZ weightOf
      simp [clamp_idem]
    by_cases hc : conditions = []
    · rw [hc]
      rfl
    · have hmapne : conditions.map clamp_row_coords ≠ [] := by
        simpa [List.map_eq_nil_iff] using hc
      unfold calculate_position
      rw [if_neg hc, if_neg hmapne]
      have hsums : positionSums (conditions.map clamp_row_coords) =
          positionSums conditions := by
        unfold positionSums
        rw [List.foldl_map]
        congr 1
        funext acc c
        exact hstep acc c
      rw [hsums]
  · intro rows risks pos t pv hpv
    obtain ⟨code, row, hrow, hicd, _, hpveq⟩ := mem_calculate_pull_vectors hpv
    exact ⟨code, row, hrow, hicd, hpveq⟩

/-- Concrete instantiation of the amended C4: pre-clamping the position
inputs changes nothing, and the single emitted pull vector is built from the
raw coordinate 2.0. -/
theorem coordinates_clamped_only_in_position_stage_witness :
    calculate_position ([exCoordRow].map clamp_row_coords) =
      calculate_position [exCoordRow]
    ∧ ∃ (code : String) (row : DiseaseRow), row ∈ [exCoordRow] ∧
        row.icd_code = code ∧
        mk_pull_vector "X00"
            { x := 2, y := 0, z := 0, name := "Xd" }
            ((lookupQ [("X00", (1:ℚ)/2)] "X00").getD 0)
            { x := 0, y := 0, z := 0 } =
          mk_pull_vector code
            { x := row.vector_x.getD 0
              y := row.vector_y.getD 0
              z := row.vector_z.getD 0
              name := match row.name_english with
                | some n => if n = "" then row.icd_code else n
                | none => row.icd_code }
            ((lookupQ [("X00", (1:ℚ)/2)] code).getD 0)
            { x := 0, y := 0, z := 0 } := by
  constructor
  · exact coordinates_clamped_only_in_position_stage.1 [exCoordRow]
  · have hmem : mk_pull_vector "X00" { x := 2, y := 0, z := 0, name := "Xd" }
        ((lookupQ [("X00", (1:ℚ)/2)] "X00").getD 0)
        { x := 0, y := 0, z := 0 } ∈
        calculate_pull_vectors [exCoordRow] [("X00", (1:ℚ)/2)]
          { x := 0, y := 0, z := 0 } 0.3 := by
      norm_num +decide [calculate_pull_vectors, get_disease_coordinates,
        sortDescBy, List.insertionSort, exCoordRow]
    obtain ⟨code, row, hrow, hicd, hpveq⟩ :=
      (coordinates_clamped_only_in_position_stage.2 [exCoordRow]
        [("X00", (1:ℚ)/2)] { x := 0, y := 0, z := 0 } 0.3) _ hmem
    exact ⟨code, row, hrow, hicd, hpveq⟩

/-! ## C7: error handling of the orchestrator -/

theorem apply_rel_row_nil (ids : List ℕ) (rel : RelRow) :
    apply_rel_row ids [] rel = [] := by
  simp [apply_rel_row, hasKey]

theorem apply_comorbidity_nil (ids : List ℕ) (rows : List RelRow) :
    apply_comorbidity_multipliers ids rows [] = [] := by
  induction rows with
  | nil => rfl
  | cons rel t ih =>
    unfold apply_comorbidity_multipliers at ih ⊢
    rw [List.foldl_cons, apply_rel_row_nil]
    exact ih

theorem final_risks_of_fetch_error (diseases : List DiseaseRow)
    (rel_rows : List RelRow) (req : Request) :
    final_risks_of diseases rel_rows (Except.error ()) req = [] := by
  show (apply_lifestyle_factors (apply_comorbidity_multipliers
      ((diseases.filter (fun r => r.icd_code ∈ req.existing_conditions)).map
        DiseaseRow.id) rel_rows []) req).1 = []
  rw [apply_comorbidity_nil]
  rfl

/-- C7: `calculate_risks` fails (with the "no valid conditions" validation
error) exactly when no input condition code resolves to a disease row; a
data-store error during the base-risk fetch is not fatal — the pipeline
proceeds on an empty base-risk map and returns a degraded (empty) risk list
and pull-vector list. -/
theorem calculate_risks_error_conditions :
    (∀ (diseases : List DiseaseRow) (rel_rows : List RelRow)
        (base_fetch : Except Unit (List DiseaseRow)) (req : Request),
      (∃ e, calculate_risks diseases rel_rows base_fetch req = Except.error e) ↔
        ∀ row ∈ diseases, row.icd_code ∉ req.existing_conditions)
    ∧ (∀ (diseases : List DiseaseRow) (rel_rows : List RelRow)
        (base_fetch : Except Unit (List DiseaseRow)) (req : Request),
        get_conditions diseases req.existing_conditions = [] →
        calculate_risks diseases rel_rows base_fetch req =
          Except.error "No valid conditions found for provided ICD codes")
    ∧ (∀ (diseases : List DiseaseRow) (rel_rows : List RelRow) (req : Request),
        get_conditions diseases req.existing_conditions ≠ [] →
        ∃ resp, calculate_risks diseases rel_rows (Except.error ()) req =
          Except.ok resp ∧ resp.risk_scores = [] ∧ resp.pull_vectors = []) := by
  refine ⟨?_, ?_, ?_⟩
  · intro diseases rel_rows base_fetch req
    constructor
    · rintro ⟨e, he⟩
      unfold calculate_risks at he
      by_cases hc : get_conditions diseases req.existing_conditions = []
      · intro row hrow hmem
        have : row ∈ get_conditions diseases req.existing_conditions :=
          List.mem_filter.mpr ⟨hrow, by simpa using hmem⟩
        rw [hc] at this
        cases this
      · rw [if_neg hc] at he
        cases he
    · intro hall
      have hc : get_conditions diseases req.existing_conditions = [] := by
        unfold get_conditions
        rw [List.filter_eq_nil_iff]
        intro row hrow
        simpa using hall row hrow
      unfold calculate_risks
      rw [if_pos hc]
      exact ⟨_, rfl⟩
  · intro diseases rel_rows base_fetch req hc
    unfold calculate_risks
    rw [if_pos hc]
  · intro diseases rel_rows req hc
    unfold calculate_risks
    rw [if_neg hc]
    refine ⟨_, rfl, ?_, ?_⟩
    · show convert_to_risk_scores
        (final_risks_of diseases rel_rows (Except.error ()) req) _ _ _ = []
      rw [final_risks_of_fetch_error]
      rfl
    · show calculate_pull_vectors _
        (final_risks_of diseases rel_rows (Except.error ()) req) _ _ = []
      rw [final_risks_of_fetch_error]
      rfl

/-- Concrete instantiation of C7: with one resolvable condition, a failed
base-risk fetch still yields a successful (degraded) response. -/
theorem calculate_risks_error_conditions_witness :
    get_conditions [exCoordRow] ["X00"] ≠ []
    ∧ ∃ resp, calculate_risks [exCoordRow] []
        (Except.error ())
        { age := 35
          gender := Gender.male
          bmi := 20
          existing_conditions := ["X00"]
          exercise_level := ExerciseLevel.moderate
          smoking := false } = Except.ok resp ∧
        resp.risk_scores = [] ∧ resp.pull_vectors = [] :=
  ⟨by decide,
   calculate_risks_error_conditions.2.2 [exCoordRow] []
     { age := 35
       gender := Gender.male
       bmi := 20
       existing_conditions := ["X00"]
       exercise_level := ExerciseLevel.moderate
       smoking := false } (by decide)⟩

/-! ## C8: contributing factors -/

theorem contrib_snd (risks : List (String × ℚ)) (req : Request) :
    (apply_lifestyle_factors risks req).2 =
      risks.map (fun p => (p.1, lifestyle_factors_one req p.1)) :=
  rfl

theorem find?_contrib (risks : List (String × ℚ)) (req : Request) (k : String)
    (hk : k ∈ risks.map Prod.fst) :
    ((((apply_lifestyle_factors risks req).2).find?
      (fun q => q.1 = k)).map Prod.snd).getD [] =
      lifestyle_factors_one req k := by
  rw [contrib_snd]
  induction risks with
  | nil => cases hk
  | cons p t ih =>
    by_cases hp : p.1 = k
    · rw [List.map_cons, List.find?_cons_of_pos _ (by simpa using hp)]
      simp [hp]
    · rw [List.map_cons, List.find?_cons_of_neg _ (by simpa using hp)]
      refine ih ?_
      rcases List.mem_map.mp hk with ⟨q, hq, hq1⟩
      rcases List.mem_cons.mp hq with he | ht
      · exact absurd (he ▸ hq1) hp
      · exact List.mem_map.mpr ⟨q, ht, hq1⟩

theorem category_cases (c : String) :
    get_disease_category c = "metabolic" ∨
    get_disease_category c = "cardiovascular" ∨
    get_disease_category c = "respiratory" ∨
    get_disease_category c = "other" := by
  unfold get_disease_category
  rcases c.toList with _ | ⟨ch, t⟩
  · simp
  · unfold DISEASE_CATEGORIES
    dsimp only
    split_ifs <;> simp

set_option maxHeartbeats 2000000 in
theorem baseline_not_mem_factors (req : Request) (c : String) :
    ∀ x ∈ lifestyle_factors_one req c, x ≠ "Population prevalence baseline" := by
  have hA : ∀ s : String,
      ¬("Population prevalence baseline" = "Age (" ++ s) := by
    intro s h
    have hd := congrArg String.data h
    rw [String.data_append] at hd
    simp at hd
  intro x hx h
  subst h
  revert hx
  unfold lifestyle_factors_one
  rcases category_cases c with hcat | hcat | hcat | hcat <;>
    rw [hcat] <;>
    split_ifs <;>
    simp [hA, String.append_assoc] <;>
    split_ifs <;>
    simp [hA]

/-- C8 (amended): an assembled entry's contributing factors are exactly the
baseline label `"Population prevalence baseline"` if and only if the
lifestyle/age stage recorded no factor string for that disease — regardless
of comorbidity multiplications, which record no contributing factors. -/
theorem contributing_factors_baseline_iff (req : Request)
    (risks : List (String × ℚ)) (names : String → String)
    (existing_conditions : List String) :
    ∀ s ∈ convert_to_risk_scores (apply_lifestyle_factors risks req).1
        (apply_lifestyle_factors risks req).2 names existing_conditions,
      (s.contributing_factors = ["Population prevalence baseline"] ↔
        lifestyle_factors_one req s.disease_id = []) := by
  intro s hs
  obtain ⟨p, hpmem, _, _, hid, _, _, hfac⟩ := mem_convert_to_risk_scores hs
  have hkey : p.1 ∈ risks.map Prod.fst := by
    have : (apply_lifestyle_factors risks req).1 =
        risks.map (fun q => (q.1, (apply_lifestyle_one req q.1 q.2).1)) := rfl
    rw [this] at hpmem
    obtain ⟨q, hq, hqe⟩ := List.mem_map.mp hpmem
    exact List.mem_map.mpr ⟨q, hq, by rw [← hqe]⟩
  have hF := find?_contrib risks req p.1 hkey
  rw [hid, hfac, hF]
  by_cases hf : lifestyle_factors_one req p.1 = []
  · rw [if_pos hf]
    exact iff_of_true rfl hf
  · rw [if_neg hf]
    refine iff_of_false ?_ hf
    intro hFb
    exact baseline_not_mem_factors req p.1 "Population prevalence baseline"
      (hFb ▸ List.mem_singleton_self _) rfl

/-- Concrete relationship row touching disease "A00" from existing condition
id 1 with odds ratio 2. -/
def exRelRowA : RelRow :=
  { disease_1_id := 1
    disease_2_id := 7
    odds_ratio := some 2
    disease_1_code := "B00"
    disease_2_code := "A00" }

/-- Concrete request for which no lifestyle/age factor applies (age 35,
normal BMI, moderate exercise, non-smoker). -/
def exReqOther : Request :=
  { age := 35
    gender := Gender.male
    bmi := 20
    existing_conditions := ["B00"]
    exercise_level := ExerciseLevel.moderate
    smoking := false }

/-- Counterexample to C8 as stated: disease "A00" is multiplied by a
comorbidity row (risk 0.1 → 0.2), yet its contributing-factors list is
exactly the baseline label — the comorbidity stage records no factor
strings. -/
theorem comorbidity_touched_disease_keeps_baseline_label :
    lookupQ (apply_comorbidity_multipliers [1] [exRelRowA]
        [("A00", (1:ℚ)/10), ("B00", (3:ℚ)/10)]) "A00" ≠
      lookupQ [("A00", (1:ℚ)/10), ("B00", (3:ℚ)/10)] "A00"
    ∧ ∃ s ∈ convert_to_risk_scores
        (apply_lifestyle_factors (apply_comorbidity_multipliers [1] [exRelRowA]
          [("A00", (1:ℚ)/10), ("B00", (3:ℚ)/10)]) exReqOther).1
        (apply_lifestyle_factors (apply_comorbidity_multipliers [1] [exRelRowA]
          [("A00", (1:ℚ)/10), ("B00", (3:ℚ)/10)]) exReqOther).2
        (fun c => c) ["B00"],
        s.disease_id = "A00" ∧
        s.contributing_factors = ["Population prevalence baseline"] := by
  have hcm : apply_comorbidity_multipliers [1] [exRelRowA]
      [("A00", (1:ℚ)/10), ("B00", (3:ℚ)/10)] =
      [("A00", (1:ℚ)/5), ("B00", (3:ℚ)/10)] := by
    norm_num +decide [apply_comorbidity_multipliers, apply_rel_row,
      rel_other_code, mulAt, hasKey, exRelRowA]
  constructor
  · rw [hcm]
    norm_num +decide [lookupQ]
  · rw [hcm]
    have hL : convert_to_risk_scores
        (apply_lifestyle_factors [("A00", (1:ℚ)/5), ("B00", (3:ℚ)/10)]
          exReqOther).1
        (apply_lifestyle_factors [("A00", (1:ℚ)/5), ("B00", (3:ℚ)/10)]
          exReqOther).2
        (fun c => c) ["B00"] =
        [{ disease_id := "A00"
           disease_name := "A00"
           risk := round4 ((1:ℚ)/5)
           level := classify_risk_level ((1:ℚ)/5)
           contributing_factors := ["Population prevalence baseline"] }] := by
      norm_num +decide [convert_to_risk_scores, apply_lifestyle_factors,
        apply_lifestyle_one, lifestyle_multiplier, lifestyle_factors_one,
        get_disease_category, DISEASE_CATEGORIES, get_age_group, ageMult,
        AGE_MULTIPLIERS, ageTableOther, exReqOther, sortDescBy,
        List.insertionSort]
    rw [hL]
    exact ⟨_, List.mem_singleton_self _, rfl, rfl⟩

/-- Concrete instantiation of the amended C8. -/
theorem contributing_factors_baseline_iff_witness :
    ({ disease_id := "A00"
       disease_name := "A00"
       risk := round4 ((1:ℚ)/5)
       level := classify_risk_level ((1:ℚ)/5)
       contributing_factors := ["Population prevalence baseline"] } :
        RiskScore).contributing_factors = ["Population prevalence baseline"] ↔
      lifestyle_factors_one exReqOther
        ({ disease_id := "A00"
           disease_name := "A00"
           risk := round4 ((1:ℚ)/5)
           level := classify_risk_level ((1:ℚ)/5)
           contributing_factors := ["Population prevalence baseline"] } :
            RiskScore).disease_id = [] := by
  have hL : convert_to_risk_scores
      (apply_lifestyle_factors [("A00", (1:ℚ)/5), ("B00", (3:ℚ)/10)]
        exReqOther).1
      (apply_lifestyle_factors [("A00", (1:ℚ)/5), ("B00", (3:ℚ)/10)]
        exReqOther).2
      (fun c => c) ["B00"] =
      [{ disease_id := "A00"
         disease_name := "A00"
         risk := round4 ((1:ℚ)/5)
         level := classify_risk_level ((1:ℚ)/5)
         contributing_factors := ["Population prevalence baseline"] }] := by
    norm_num +decide [convert_to_risk_scores, apply_lifestyle_factors,
      apply_lifestyle_one, lifestyle_multiplier, lifestyle_factors_one,
      get_disease_category, DISEASE_CATEGORIES, get_age_group, ageMult,
      AGE_MULTIPLIERS, ageTableOther, exReqOther, sortDescBy,
      List.insertionSort]
  exact contributing_factors_baseline_iff exReqOther
    [("A00", (1:ℚ)/5), ("B00", (3:ℚ)/10)] (fun c => c) ["B00"] _
    (hL ▸ List.mem_singleton_self _)

/-! ## C9: pull vectors are not filtered against existing conditions -/

theorem pull_vector_emitted {rows : List DiseaseRow}
    {risks : List (String × ℚ)} {pos : UserPosition} {t : ℚ} {code : String}
    {r : ℚ} (hrisk : lookupQ risks code = some r) (hgt : r > t)
    (hrow : ∃ row ∈ rows, row.icd_code = code) :
    ∃ pv ∈ calculate_pull_vectors rows risks pos t, pv.disease_id = code := by
  have hcode : code ∈ (risks.filter (fun p => p.2 > t)).map Prod.fst := by
    unfold lookupQ at hrisk
    rcases hfind : risks.find? (fun p => p.1 = code) with _ | p
    · rw [hfind] at hrisk
      cases hrisk
    · rw [hfind] at hrisk
      have hp2 : p.2 = r := by simpa using hrisk
      have hp1 : p.1 = code := by simpa using List.find?_some hfind
      refine List.mem_map.mpr ⟨p, List.mem_filter.mpr
        ⟨List.mem_of_find?_eq_some hfind, ?_⟩, hp1⟩
      simpa [hp2] using hgt
  obtain ⟨row, hrowmem, hicd⟩ := hrow
  have hcoords : ((get_disease_coordinates rows
      ((risks.filter (fun p => p.2 > t)).map Prod.fst)).find?
      (fun q => q.1 = code)).isSome = true := by
    rw [List.find?_isSome]
    refine ⟨(row.icd_code,
      { x := row.vector_x.getD 0
        y := row.vector_y.getD 0
        z := row.vector_z.getD 0
        name := match row.name_english with
          | some n => if n = "" then row.icd_code else n
          | none => row.icd_code }), ?_, by simpa using hicd⟩
    unfold get_disease_coordinates
    refine List.mem_map.mpr ⟨row, List.mem_filter.mpr ⟨hrowmem, ?_⟩, rfl⟩
    rw [hicd]
    simpa using hcode
  obtain ⟨e, he⟩ := Option.isSome_iff_exists.mp hcoords
  refine ⟨mk_pull_vector code e.2 ((lookupQ risks code).getD 0) pos, ?_, rfl⟩
  unfold calculate_pull_vectors
  rw [mem_sortDescBy]
  apply List.mem_filterMap.mpr
  refine ⟨code, hcode, ?_⟩
  rw [he]
  rfl

/-- C9 (implicit): the pull-vector output is not filtered against the user's
existing conditions — an existing condition whose post-adjustment risk
exceeds the 0.3 threshold and whose coordinates resolve gets a pull vector,
even though the same disease is excluded from the risk-score list. -/
theorem pull_vectors_include_existing_conditions
    (diseases : List DiseaseRow) (rel_rows : List RelRow)
    (base_fetch : Except Unit (List DiseaseRow)) (req : Request)
    (resp : Response) (code : String) (r : ℚ)
    (hok : calculate_risks diseases rel_rows base_fetch req = Except.ok resp)
    (hex : code ∈ req.existing_conditions)
    (hrisk : lookupQ (final_risks_of diseases rel_rows base_fetch req) code =
      some r)
    (hgt : r > 0.3)
    (hrow : ∃ row ∈ diseases, row.icd_code = code) :
    (∃ pv ∈ resp.pull_vectors, pv.disease_id = code)
    ∧ ∀ s ∈ resp.risk_scores, s.disease_id ≠ code := by
  unfold calculate_risks at hok
  by_cases hc : get_conditions diseases req.existing_conditions = []
  · rw [if_pos hc] at hok
    cases hok
  · rw [if_neg hc] at hok
    have hresp := Except.ok.inj hok
    subst hresp
    constructor
    · exact pull_vector_emitted hrisk hgt hrow
    · intro s hs
      obtain ⟨p, _, _, hnotex, hid, _⟩ := mem_convert_to_risk_scores hs
      rw [hid]
      intro hpc
      exact hnotex (hpc ▸ hex)

/-- Concrete condition row whose coordinates coincide with the resulting user
position. -/
def exCondRow : DiseaseRow :=
  { id := 9
    icd_code := "Y00"
    name_english := some "Yd"
    prevalence_male := some (1/2)
    prevalence_female := some (1/2)
    prevalence_total := some (1/2)
    vector_x := some 1
    vector_y := some 0
    vector_z := some 0 }

/-- Concrete request whose only existing condition is "Y00". -/
def exReq9 : Request :=
  { age := 35
    gender := Gender.male
    bmi := 20
    existing_conditions := ["Y00"]
    exercise_level := ExerciseLevel.moderate
    smoking := false }

/-- Response produced by `calculate_risks` on `exCondRow` / `exReq9`. -/
def exResp9 : Response :=
  { risk_scores := []
    user_position := { x := 1, y := 0, z := 0 }
    pull_vectors :=
      [{ disease_id := "Y00"
         disease_name := "Yd"
         risk := 1/2
         vector_x := 0
         vector_y := 0
         vector_z := 0
         magnitude := 0 }]
    total_conditions_analyzed := 1 }

/-- Concrete instantiation of C9: the existing condition "Y00" (risk 0.5 >
0.3, resolvable coordinates) receives a pull vector while being absent from
the risk-score list. -/
theorem pull_vectors_include_existing_conditions_witness :
    (∃ pv ∈ exResp9.pull_vectors, pv.disease_id = "Y00")
    ∧ ∀ s ∈ exResp9.risk_scores, s.disease_id ≠ "Y00" := by
  have hok : calculate_risks [exCondRow] [] (Except.ok [exCondRow]) exReq9 =
      Except.ok exResp9 := by
    norm_num +decide [calculate_risks, get_conditions, final_risks_of,
      contributing_factors_of, calculate_base_risks_for_all, base_risk_of,
      prevalence_field, apply_comorbidity_multipliers, apply_lifestyle_factors,
      apply_lifestyle_one, lifestyle_multiplier, lifestyle_factors_one,
      get_disease_category, DISEASE_CATEGORIES, get_age_group, ageMult,
      AGE_MULTIPLIERS, ageTableOther, convert_to_risk_scores,
      calculate_position, positionSums, position_step, clampedX, clampedY,
      clampedZ, weightOf, clamp, calculate_pull_vectors,
      get_disease_coordinates, mk_pull_vector, lookupQ, sortDescBy,
      List.insertionSort, round4, roundHalfEven, roundSqrt4_zero,
      disease_names, exCondRow, exReq9, exResp9]
  have hrisk : lookupQ (final_risks_of [exCondRow] [] (Except.ok [exCondRow])
      exReq9) "Y00" = some (1/2) := by
    norm_num +decide [final_risks_of, calculate_base_risks_for_all,
      base_risk_of, prevalence_field, apply_comorbidity_multipliers,
      apply_lifestyle_factors, apply_lifestyle_one, lifestyle_multiplier,
      lifestyle_factors_one, get_disease_category, DISEASE_CATEGORIES,
      get_age_group, ageMult, AGE_MULTIPLIERS, ageTableOther, lookupQ,
      exCondRow, exReq9]
  exact pull_vectors_include_existing_conditions [exCondRow] []
    (Except.ok [exCondRow]) exReq9 exResp9 "Y00" (1/2) hok (by decide) hrisk
    (by norm_num) ⟨exCondRow, List.mem_singleton_self _, by decide⟩

end DiseaseRelater
